import Mathlib

/-!
Verification of the graphql-auth permission model: a shallow embedding of
the context builder, the scope and event evaluator helpers, and the error
taxonomy, with theorems settling the specified properties.
-/

namespace GraphqlAuth

/-- Whitespace test matching the character class of the regex the source
uses to split the Authorization header and the scope claim. -/
def isJsWs (c : Char) : Bool :=
  c = ' ' || c = '\t' || c = '\n' || c = '\r' || c = '\x0b' || c = '\x0c'

/-- Worker for splitting a character list on runs of whitespace, mirroring
a split on a whitespace-run regex: fields are the maximal substrings
between separator runs, including an empty field before a leading run and
after a trailing run.  The flag records whether the previous character was
inside a separator run. -/
def jsSplitWsAux : Bool → List Char → List (List Char) → List Char → List (List Char)
  | _, cur, acc, [] => (cur.reverse :: acc).reverse
  | inWs, cur, acc, c :: cs =>
    if isJsWs c then
      if inWs then jsSplitWsAux true cur acc cs
      else jsSplitWsAux true [] (cur.reverse :: acc) cs
    else jsSplitWsAux false (c :: cur) acc cs

/-- Split a string on runs of whitespace the way the source splits the
Authorization header and the scope claim. -/
def jsSplitWs (s : String) : List String :=
  (jsSplitWsAux false [] [] s.data).map fun cs => String.mk cs

/-- Scope (or permission) argument as the source accepts it: either a
single string or an array of strings. -/
inductive StrOrList where
  | str (s : String)
  | arr (l : List String)
deriving DecidableEq

/-- Normalization performed by the source: wrap a single string into a
one-element array, keep an array as is. -/
def StrOrList.asArray : StrOrList → List String
  | .str s => [s]
  | .arr l => l

/-- Requirement argument accepted by the MissingScopeError constructor: an
array, a string, or a null-ish value (null and undefined, which the
constructor treats identically). -/
inductive Reqs where
  | arr (l : List String)
  | str (s : String)
  | undef
deriving DecidableEq

/-- Conversion of a scope argument to the requirement it is reported as
when a require helper fails: the argument is passed through unchanged. -/
def StrOrList.toReqs : StrOrList → Reqs
  | .str s => .str s
  | .arr l => .arr l

/-- Requirement rendering of MissingScopeError: a list of two or more
entries renders as the leading entries joined by commas followed by an or
before the last entry; a one-element list renders as its entry; a plain
string renders as itself; an empty list and a null-ish value render as
null (no message). -/
def makeRequirementMessage : Reqs → Option String
  | .arr [] => none
  | .arr [x] => some x
  | .arr (x :: y :: rest) =>
      some (String.intercalate ", " ((x :: y :: rest).dropLast) ++ ", or "
        ++ (x :: y :: rest).getLastD "")
  | .str s => some s
  | .undef => none

/-- Truthiness filter the MissingScopeError constructor applies when it
builds each clause: a null rendering and an empty-string rendering are
both falsy, so no clause is produced for them. -/
def reqClause (m : Option String) (tail : String) : Option String :=
  match m with
  | some s => if s = "" then none else some (s ++ tail)
  | none => none

/-- Message of MissingScopeError as built by its constructor: clauses for
the global and the event requirements, joined by an or, appended to the
fixed denial sentence only when at least one clause exists. -/
def missingScopeMessage (requiresGlobal requiresEvent : Reqs) : String :=
  let requiresMessage := String.intercalate ", or "
    (([reqClause (makeRequirementMessage requiresGlobal) " global scope",
       reqClause (makeRequirementMessage requiresEvent) " event scope"]).filterMap id)
  if requiresMessage = "" then "You don\x27t have permission for that."
  else "You don\x27t have permission for that." ++ "(Requires " ++ requiresMessage ++ ")"

/-- Domain errors of the library: MissingScopeError carries the global and
event requirements it was constructed with; MustLogInError carries no
data. -/
inductive AuthError where
  | missingScope (requiresGlobal requiresEvent : Reqs)
  | mustLogIn
deriving DecidableEq

/-- Message attached to each error by its constructor. -/
def AuthError.message : AuthError → String
  | .missingScope g e => missingScopeMessage g e
  | .mustLogIn => "You must be logged in."

/-- Function hasScope of the scope context helpers: normalize the argument
to an array, map each entry to membership in the scopes of the principal,
and or-fold the results starting from false. -/
def hasScope (scopes : List String) (scope : StrOrList) : Bool :=
  ((scope.asArray).map fun s => scopes.contains s).foldl (fun accum s => accum || s) false

/-- Function requireScope: throw MissingScopeError carrying the scope
argument as the global requirement (and no event requirement) when
hasScope is false, otherwise do nothing. -/
def requireScope (scopes : List String) (scope : StrOrList) : Except AuthError Unit :=
  if !(hasScope scopes scope) then .error (.missingScope scope.toReqs .undef) else .ok ()

/-- Function hasEvent: key membership of the event id in the events
mapping of the principal. -/
def hasEvent (events : List (String × String)) (event : String) : Bool :=
  (events.lookup event).isSome

/-- Function hasEventScope: false when hasEvent is false; otherwise
normalize the permission argument to an array, compare the permission
stored for the event against each entry for exact equality, and or-fold
the results starting from false. -/
def hasEventScope (events : List (String × String)) (event : String)
    (permission : StrOrList) : Bool :=
  if !(hasEvent events event) then false
  else ((permission.asArray).map fun p => events.lookup event == some p).foldl
    (fun accum p => p || accum) false

/-- Function hasScopeOrEvent built by the context builder: a global scope
check or bare event membership. -/
def hasScopeOrEvent (scopes : List String) (events : List (String × String))
    (scope : StrOrList) (event : String) : Bool :=
  hasScope scopes scope || hasEvent events event

/-- Function requireLoggedIn: throw MustLogInError when the principal is
not logged in, otherwise do nothing. -/
def requireLoggedIn (isLoggedIn : Bool) : Except AuthError Unit :=
  if !isLoggedIn then .error .mustLogIn else .ok ()

/-- Token claims consumed by the context builder, with the local names the
source gives the vendor-namespaced custom claims when destructuring. -/
structure Claims where
  sub : Option String
  email : Option String
  scope : String
  username : Option String
  corporateEmail : Option String
  phoneNumber : Option String
  pronoun : Option String
  events : List (String × String)
deriving DecidableEq

/-- Identity record exposed as the user: all fields absent when anonymous. -/
structure UserInfo where
  userId : Option String := none
  username : Option String := none
  email : Option String := none
  corporateEmail : Option String := none
  phoneNumber : Option String := none
  pronoun : Option String := none
deriving DecidableEq

/-- Auth record of the context: logged-in flag, global scopes, event map. -/
structure AuthState where
  isLoggedIn : Bool
  scopes : List String
  events : List (String × String)
deriving DecidableEq

/-- Context returned per request: the auth record and the user record. -/
structure Context where
  auth : AuthState
  user : UserInfo
deriving DecidableEq

/-- Lowercase a string the way the scheme comparison of the source does,
character by character. -/
def jsToLower (s : String) : String :=
  String.mk (s.data.map Char.toLower)

/-- Header parsing of the context builder: default an absent header to the
empty string, split on whitespace runs with a limit of two fields, and
destructure into the scheme and the optional credential. -/
def parseAuthHeader (authorization : Option String) : String × Option String :=
  let parts := (jsSplitWs (authorization.getD "")).take 2
  (parts.headD "", parts[1]?)

/-- Bearer-credential test of the context builder: the credential is used
exactly when the scheme lowercases to bearer and the credential is present
and non-empty, which is the truthiness test of the source. -/
def bearerTokenOf (authorization : Option String) : Option String :=
  if jsToLower (parseAuthHeader authorization).1 = "bearer"
      ∧ (parseAuthHeader authorization).2.getD "" ≠ "" then
    (parseAuthHeader authorization).2
  else none

/-- Context value when no bearer credential is used: anonymous. -/
def anonymousContext : Context :=
  { auth := { isLoggedIn := false, scopes := [], events := [] }, user := {} }

/-- Context populated from verified claims: logged in, scopes from the
whitespace-split scope claim, events and identity copied from the claims. -/
def contextOfClaims (c : Claims) : Context :=
  { auth := { isLoggedIn := true, scopes := jsSplitWs c.scope, events := c.events },
    user := { userId := c.sub, username := c.username, email := c.email,
              corporateEmail := c.corporateEmail, phoneNumber := c.phoneNumber,
              pronoun := c.pronoun } }

/-- Context builder: anonymous unless a bearer credential is present, in
which case the verification collaborator runs; its failure propagates
unchanged and its success fully populates the context. -/
def buildContext {ε : Type} (verify : String → Except ε Claims)
    (authorization : Option String) : Except ε Context :=
  match bearerTokenOf authorization with
  | some t =>
    match verify t with
    | .error e => .error e
    | .ok c => .ok (contextOfClaims c)
  | none => .ok anonymousContext

/-- Or-folding from the left with the accumulator on the left computes the
disjunction of the start value with any element being true. -/
theorem foldl_or_eq (l : List Bool) (b : Bool) :
    l.foldl (fun accum s => accum || s) b = (b || l.any id) := by
  induction l generalizing b with
  | nil => simp
  | cons x xs ih => simp [List.foldl_cons, ih, Bool.or_assoc]

/-- Or-folding from the left with the accumulator on the right computes
the same disjunction, since disjunction is commutative. -/
theorem foldl_or_flip_eq (l : List Bool) (b : Bool) :
    l.foldl (fun accum s => s || accum) b = (b || l.any id) := by
  induction l generalizing b with
  | nil => simp
  | cons x xs ih =>
    rw [List.foldl_cons, ih]
    cases x <;> cases b <;> simp

/-- Any-test of a mapped list with the identity predicate is the any-test
of the original list with the mapped function. -/
theorem any_map_id {α : Type} (f : α → Bool) (l : List α) :
    (l.map f).any id = l.any f := by
  induction l with
  | nil => rfl
  | cons x xs ih => simp [ih]

/-- Unfolding of hasScope to an any-test over the normalized argument. -/
theorem hasScope_eq_any (scopes : List String) (scope : StrOrList) :
    hasScope scopes scope = (scope.asArray).any fun s => scopes.contains s := by
  unfold hasScope
  rw [foldl_or_eq, any_map_id]
  simp

example : jsSplitWs "" = [""] := by decide
example : jsSplitWs "a  b " = ["a", "b", ""] := by decide
example : jsSplitWs " a" = ["", "a"] := by decide
example : parseAuthHeader (some "Bearer abc def") = ("Bearer", some "abc") := by decide
example : bearerTokenOf (some "Bearer abc") = some "abc" := by decide
example : bearerTokenOf (some "bearer ") = none := by decide
example : bearerTokenOf none = none := by decide
example : hasScope ["admin"] (.arr ["viewer", "admin"]) = true := by decide
example : hasEventScope [("evt1", "organizer")] "evt1" (.str "volunteer") = false := by decide
example : missingScopeMessage (.arr ["a", "b", "c"]) .undef
    = "You don\x27t have permission for that.(Requires a, b, or c global scope)" := by decide

/-- C1: for every principal and every scope argument, hasScope is true iff
the single given scope, or at least one entry of the given array, is a
member of the scopes of the principal (or-semantics across multiple
scopes). -/
theorem hasScope_iff_mem (scopes : List String) (a : String) (l : List String) :
    (hasScope scopes (.str a) = true ↔ a ∈ scopes)
    ∧ (hasScope scopes (.arr l) = true ↔ ∃ x ∈ l, x ∈ scopes) := by
  constructor
  · rw [hasScope_eq_any]
    simp [StrOrList.asArray]
  · rw [hasScope_eq_any]
    simp [StrOrList.asArray, List.any_eq_true]

/-- Witness for C1 at a concrete principal and concrete arguments. -/
theorem hasScope_iff_mem_witness :
    (hasScope ["admin"] (.str "admin") = true ↔ "admin" ∈ ["admin"])
    ∧ (hasScope ["admin"] (.arr ["viewer", "admin"]) = true
        ↔ ∃ x ∈ ["viewer", "admin"], x ∈ ["admin"]) :=
  hasScope_iff_mem ["admin"] "admin" ["viewer", "admin"]

/-- C2: requireScope throws MissingScopeError carrying the scope argument
as its global requirement (and no event requirement) exactly when
hasScope is false, and returns unit with no other effect when hasScope is
true. -/
theorem requireScope_spec (scopes : List String) (scope : StrOrList) :
    (requireScope scopes scope
        = .error (.missingScope scope.toReqs .undef)
      ↔ hasScope scopes scope = false)
    ∧ (hasScope scopes scope = true → requireScope scopes scope = .ok ()) := by
  unfold requireScope
  cases h : hasScope scopes scope <;> simp [h]

/-- Witness for C2 at a concrete principal and scope. -/
theorem requireScope_spec_witness :
    hasScope ["admin"] (.str "admin") = true
    ∧ requireScope ["admin"] (.str "admin") = .ok () :=
  ⟨by decide, (requireScope_spec ["admin"] (.str "admin")).2 (by decide)⟩

/-- C3: hasEventScope is false whenever the event id is not a key of the
events mapping of the principal, and when the event id is a key it is
true iff the single stored permission level is exactly equal to at least
one of the given permission values. -/
theorem hasEventScope_spec (events : List (String × String)) (e : String) (ps : StrOrList) :
    (events.lookup e = none → hasEvent events e = false ∧ hasEventScope events e ps = false)
    ∧ (∀ v, events.lookup e = some v →
        (hasEventScope events e ps = true ↔ ∃ p ∈ ps.asArray, v = p)) := by
  constructor
  · intro h
    have he : hasEvent events e = false := by simp [hasEvent, h]
    exact ⟨he, by simp [hasEventScope, he]⟩
  · intro v hv
    have he : hasEvent events e = true := by simp [hasEvent, hv]
    unfold hasEventScope
    rw [he, hv, foldl_or_flip_eq]
    simp [List.any_eq_true]

/-- Witness for C3 at the concrete scenario of the specification. -/
theorem hasEventScope_spec_witness :
    [("evt1", "organizer")].lookup "evt1" = some "organizer"
    ∧ (hasEventScope [("evt1", "organizer")] "evt1" (.str "organizer") = true
        ↔ ∃ p ∈ (StrOrList.str "organizer").asArray, "organizer" = p) :=
  ⟨by decide,
    (hasEventScope_spec [("evt1", "organizer")] "evt1" (.str "organizer")).2
      "organizer" (by decide)⟩

/-- C4: an absent header, a scheme that does not lowercase to bearer, or
an absent or empty credential makes the builder return the anonymous
context without error, and this holds for every verification collaborator,
so the collaborator is never consulted. -/
theorem buildContext_anonymous {ε : Type} (verify : String → Except ε Claims)
    (authorization : Option String)
    (h : authorization = none
      ∨ jsToLower (parseAuthHeader authorization).1 ≠ "bearer"
      ∨ (parseAuthHeader authorization).2 = none
      ∨ (parseAuthHeader authorization).2 = some "") :
    buildContext verify authorization = .ok anonymousContext := by
  have hb : bearerTokenOf authorization = none := by
    unfold bearerTokenOf
    rcases h with h | h | h | h
    · subst h; rfl
    · rw [if_neg]
      intro hc
      exact h hc.1
    · rw [if_neg]
      intro hc
      rw [h] at hc
      exact hc.2 rfl
    · rw [if_neg]
      intro hc
      rw [h] at hc
      exact hc.2 rfl
  unfold buildContext
  rw [hb]

/-- Witness for C4 at a concrete non-bearer header and a collaborator that
would fail if it were consulted. -/
theorem buildContext_anonymous_witness :
    buildContext (fun _ => (Except.error "bad signature" : Except String Claims))
      (some "Basic dXNlcg==") = .ok anonymousContext :=
  buildContext_anonymous (fun _ => (Except.error "bad signature" : Except String Claims))
    (some "Basic dXNlcg==") (Or.inr (Or.inl (by decide)))

/-- C5: when a bearer credential is present and the verification
collaborator fails, the builder propagates that error unchanged; and
every successful result is all-or-nothing: either the anonymous context
or the context fully populated from the verified claims. -/
theorem buildContext_propagates {ε : Type} (verify : String → Except ε Claims)
    (authorization : Option String) :
    (∀ t e, bearerTokenOf authorization = some t → verify t = .error e →
        buildContext verify authorization = .error e)
    ∧ (∀ ctx, buildContext verify authorization = .ok ctx →
        ctx = anonymousContext
        ∨ ∃ t c, bearerTokenOf authorization = some t ∧ verify t = .ok c
            ∧ ctx = contextOfClaims c) := by
  constructor
  · intro t e ht he
    simp only [buildContext, ht, he]
  · intro ctx hctx
    cases hb : bearerTokenOf authorization with
    | none =>
      simp only [buildContext, hb] at hctx
      exact Or.inl (Except.ok.inj hctx).symm
    | some t =>
      simp only [buildContext, hb] at hctx
      cases hv : verify t with
      | error e =>
        rw [hv] at hctx
        exact absurd hctx (by simp)
      | ok c =>
        rw [hv] at hctx
        exact Or.inr ⟨t, c, rfl, hv, (Except.ok.inj hctx).symm⟩

/-- Witness for C5 at a concrete bearer header and a collaborator failing
with a concrete verification error. -/
theorem buildContext_propagates_witness :
    buildContext (fun _ => (Except.error "jwt expired" : Except String Claims))
      (some "Bearer abc") = .error "jwt expired" :=
  (buildContext_propagates (fun _ => (Except.error "jwt expired" : Except String Claims))
      (some "Bearer abc")).1 "abc" "jwt expired" (by decide) rfl

/-- C6: hasScopeOrEvent equals the boolean disjunction of hasScope and
hasEvent for all inputs, hence agrees with it on all four truth-table
combinations of the two operands. -/
theorem hasScopeOrEvent_eq_or (scopes : List String) (events : List (String × String))
    (scope : StrOrList) (event : String) :
    hasScopeOrEvent scopes events scope event
      = (hasScope scopes scope || hasEvent events event) :=
  rfl

/-- C7: the MissingScopeError message renders a multi-entry requirement
list as the entries joined by commas with an or before the last one, and
an empty or absent requirement list contributes no clause; in particular
a global requirement of a, b, c with a null event requirement yields a
message naming the three global scopes and no event clause. -/
theorem missingScopeMessage_rendering :
    missingScopeMessage (.arr ["a", "b", "c"]) .undef
      = "You don\x27t have permission for that.(Requires a, b, or c global scope)"
    ∧ makeRequirementMessage (.arr ["a", "b", "c"]) = some "a, b, or c"
    ∧ missingScopeMessage (.arr []) .undef = "You don\x27t have permission for that."
    ∧ missingScopeMessage .undef (.arr []) = "You don\x27t have permission for that."
    ∧ missingScopeMessage .undef (.arr ["x", "y"])
      = "You don\x27t have permission for that.(Requires x, or y event scope)" := by
  refine ⟨by decide, by decide, by decide, by decide, by decide⟩

/-- C8: requireLoggedIn fails with MustLogInError exactly when the
principal is not logged in, and MustLogInError carries nothing beyond the
fixed must-log-in message. -/
theorem requireLoggedIn_spec (isLoggedIn : Bool) :
    (requireLoggedIn isLoggedIn = .error .mustLogIn ↔ isLoggedIn = false)
    ∧ AuthError.mustLogIn.message = "You must be logged in." := by
  cases isLoggedIn <;> simp [requireLoggedIn, AuthError.message]

/-- Witness for C8 at the concrete logged-out principal. -/
theorem requireLoggedIn_spec_witness :
    requireLoggedIn false = .error .mustLogIn :=
  (requireLoggedIn_spec false).1.mpr rfl

/-- Concrete claims whose scope claim is the empty string. -/
def emptyScopeClaims : Claims :=
  { sub := some "auth0|u1", email := some "u1@example.com", scope := "",
    username := some "u1", corporateEmail := none, phoneNumber := none,
    pronoun := none, events := [] }

/-- C9: with a verified token whose scope claim is the empty string, the
builder produces a logged-in principal whose scopes list is the
one-element list holding the empty string, not the empty list, so
hasScope of the empty string is true for that principal. -/
theorem emptyScope_gives_singleton :
    buildContext (fun _ => (Except.ok emptyScopeClaims : Except String Claims))
      (some "bearer tok") = .ok (contextOfClaims emptyScopeClaims)
    ∧ (contextOfClaims emptyScopeClaims).auth.scopes = [""]
    ∧ hasScope (contextOfClaims emptyScopeClaims).auth.scopes (.str "") = true
    ∧ (contextOfClaims emptyScopeClaims).auth.isLoggedIn = true := by
  refine ⟨rfl, by decide, by decide, by decide⟩

/-- C10: an empty requirement list never grants access: hasScope of the
empty array is false for every principal, and hasEventScope of the empty
permission array is false for every principal and every event id, even
when the event id is a key of the events mapping. -/
theorem empty_list_denies (scopes : List String) (events : List (String × String))
    (e : String) :
    hasScope scopes (.arr []) = false ∧ hasEventScope events e (.arr []) = false := by
  constructor
  · rfl
  · unfold hasEventScope
    cases h : hasEvent events e <;> simp [StrOrList.asArray]

end GraphqlAuth
